import Mathlib

/-
Verification of the NiFi observability backend (`backend/app`): a shallow
embedding of the NiFi client service layer (`services/nifi_client.py`) and of
the FastAPI handlers (`main.py`) that the verified properties refer to.

Upstream HTTP interactions are modelled by environment records whose fields
give the outcome of each upstream call (the parsed JSON payload on success, or
the kind of exception raised).  Exception kinds mirror the Python code:
`NifiFailure.http` models `httpx.HTTPStatusError` (from `raise_for_status`),
`NifiFailure.api` models `NiFiAPIError`, and `NifiFailure.exc` models any other
`Exception`.  Free-form JSON blobs that the code passes through untouched
(`style`, `config`, version-control metadata, the `/flow/about` payload) are
modelled as opaque strings; lists of such blobs as lists of opaque strings.
-/

namespace Nifi

/-- Exception kinds that an upstream call in `nifi_client.py` can raise. -/
inductive NifiFailure where
  | http (code : Nat)
  | api (msg : String)
  | exc (msg : String)
deriving Repr, DecidableEq

/-! ## Provenance data model (`models.py`)

`ProvenanceEvent` keeps the seven fields that Pydantic requires
(`id`, `eventId`, `eventTime`, `eventType`, `flowFileUuid`, `componentId`,
`componentType`) plus the optional `componentName`; the remaining optional
pass-through metadata fields (lineage, content-claim, attribute maps) do not
influence any verified property and are projected away. -/

structure ProvenanceEvent where
  id : String
  event_id : Int
  event_time : String
  event_type : String
  flowfile_uuid : String
  component_id : String
  component_type : String
  component_name : Option String
deriving Repr, DecidableEq

/-- Raw upstream JSON for one provenance event: every field may be absent. -/
structure RawProvenanceEvent where
  id : Option String := none
  eventId : Option Int := none
  eventTime : Option String := none
  eventType : Option String := none
  flowFileUuid : Option String := none
  componentId : Option String := none
  componentType : Option String := none
  componentName : Option String := none
deriving Repr, DecidableEq

/-- `ProvenanceEvent.model_validate`: succeeds exactly when all required
fields are present (a failure is logged and the record dropped). -/
def parseProvenanceEvent (r : RawProvenanceEvent) : Option ProvenanceEvent :=
  match r.id, r.eventId, r.eventTime, r.eventType, r.flowFileUuid,
        r.componentId, r.componentType with
  | some i, some eid, some et, some ety, some ff, some cid, some cty =>
      some { id := i, event_id := eid, event_time := et, event_type := ety,
             flowfile_uuid := ff, component_id := cid, component_type := cty,
             component_name := r.componentName }
  | _, _, _, _, _, _, _ => none

/-- The `results` object of a provenance payload
(`results.provenanceEvents`, `results.totalCount`, `results.total`). -/
structure ProvenanceResults where
  provenanceEvents : List RawProvenanceEvent := []
  totalCount : Option Int := none
  total : Option String := none
deriving Repr, DecidableEq

/-- The `provenance` object of the POST response: `provenance.id` and
`provenance.results`. -/
structure SubmitProvenance where
  queryId : Option String := none
  results : ProvenanceResults := {}
deriving Repr, DecidableEq

/-- The `provenance` object of a poll (GET) response: `status`, `message`
and `results`. -/
structure PollProvenance where
  status : Option String := none
  message : Option String := none
  results : ProvenanceResults := {}
deriving Repr, DecidableEq

/-- The provenance search request body built at `nifi_client.py:389-410`. -/
structure ProvenanceQueryBody where
  incrementalResults : Bool
  maxResults : Nat
  summarize : Bool
  processorIdTerm : String
  startDate : Option String
  endDate : Option String
deriving Repr, DecidableEq

/-- Builds the query body: `incrementalResults=False`,
`maxResults=min(max_results, 1000)`, `summarize=True`, the `ProcessorID`
search term, and the optional date range. -/
def buildProvenanceQueryBody (processorId : String) (maxResults : Nat)
    (startDate endDate : Option String) : ProvenanceQueryBody :=
  { incrementalResults := false, maxResults := min maxResults 1000,
    summarize := true, processorIdTerm := processorId,
    startDate := startDate, endDate := endDate }

/-- Upstream environment for one `get_provenance_events` call: the outcome of
the submission POST, of the `i`-th poll GET, and of the `k`-th DELETE, plus
the clock value used for `queryTime` (`datetime.now().isoformat()`). -/
structure ProvenanceEnv where
  submit : ProvenanceQueryBody → Except NifiFailure SubmitProvenance
  poll : Nat → Except NifiFailure PollProvenance
  deleteOutcome : Nat → Except String Unit
  now : String

/-- `_delete_provenance_query` (`nifi_client.py:565-585`): the DELETE is
attempted and any exception is swallowed (logged as a warning), so the helper
always returns normally whatever the outcome. -/
def deleteProvenanceQueryCall (outcome : Except String Unit) : Unit :=
  match outcome with
  | .ok _ => ()
  | .error _ => ()

/-- Python `str.replace(",", "")`. -/
def removeCommas (s : String) : String :=
  String.mk (s.toList.filter (fun c => c ≠ ','))

/-- Lexicographic code-point comparison of character lists: Python's `<` on
strings (and Lean's `String.lt`, stated on `toList` so that it computes by
structural recursion). -/
def pyCharListLt : List Char → List Char → Bool
  | [], [] => false
  | [], _ :: _ => true
  | _ :: _, [] => false
  | a :: as, b :: bs =>
    if a < b then true
    else if b < a then false
    else pyCharListLt as bs

/-- Python `a < b` on strings. -/
def pyStrLt (a b : String) : Bool :=
  pyCharListLt a.toList b.toList

/-- Python `int(s)` on a string: optional surrounding whitespace, optional
sign, at least one decimal digit; `none` models a raised `ValueError`.
(Python additionally accepts underscore digit separators and non-ASCII
digits; those inputs are claim-irrelevant.) -/
def parseIntPy (s : String) : Option Int :=
  let trimmed := ((s.toList.dropWhile Char.isWhitespace).reverse.dropWhile
    Char.isWhitespace).reverse
  let signed : Int × List Char :=
    match trimmed with
    | '-' :: rest => (-1, rest)
    | '+' :: rest => (1, rest)
    | rest => (1, rest)
  if signed.2 ≠ [] ∧ signed.2.all Char.isDigit then
    some (signed.1 * (signed.2.foldl (fun acc c => acc * 10 + (c.toNat - 48)) 0 : Nat))
  else none

/-- The total-count computation duplicated at `nifi_client.py:437-447` and
`nifi_client.py:500-509`: use `totalCount` when present; otherwise, when the
`total` string is truthy (present and non-empty), parse it with commas
removed, falling back to `len(events_data)` when parsing raises; otherwise
use `len(events_data)`. -/
def computeTotalCount (totalCount : Option Int) (total : Option String)
    (numRawEvents : Nat) : Int :=
  match totalCount with
  | some n => n
  | none =>
    match total with
    | some s =>
      if s ≠ "" then
        match parseIntPy (removeCommas s) with
        | some n => n
        | none => (numRawEvents : Int)
      else (numRawEvents : Int)
    | none => (numRawEvents : Int)

/-- Insertion step of the stable descending sort on `event_time`. -/
def insertEventDesc (x : ProvenanceEvent) : List ProvenanceEvent → List ProvenanceEvent
  | [] => [x]
  | y :: ys =>
    if pyStrLt x.event_time y.event_time then y :: insertEventDesc x ys
    else x :: y :: ys

/-- `events.sort(key=lambda x: x.event_time, reverse=True)`: a stable sort,
descending on `event_time`; as a function of the input list this insertion
sort coincides with Python's stable `list.sort`. -/
def sortEventsDesc : List ProvenanceEvent → List ProvenanceEvent
  | [] => []
  | x :: xs => insertEventDesc x (sortEventsDesc xs)

/-- The `ProvenanceEventsResponse` model (`models.py:180-191`). -/
structure ProvenanceEventsResponse where
  processorId : String
  totalEvents : Int
  events : List ProvenanceEvent
  queryTime : String
deriving Repr, DecidableEq

/-- The response-building block shared verbatim by the inline path
(`nifi_client.py:450-474`) and the FINISHED poll path
(`nifi_client.py:494-533`): parse each raw event (dropping invalid ones),
sort descending by event time, and return the first `max_results` events
together with the upstream-reported total. -/
def buildProvenanceResponse (processorId : String) (maxResults : Nat)
    (rd : ProvenanceResults) (now : String) : ProvenanceEventsResponse :=
  let eventsData := rd.provenanceEvents
  let totalCount := computeTotalCount rd.totalCount rd.total eventsData.length
  let events := sortEventsDesc (eventsData.filterMap parseProvenanceEvent)
  { processorId := processorId, totalEvents := totalCount,
    events := events.take maxResults, queryTime := now }

/-- Result of one `get_provenance_events` call plus its upstream-call trace:
the returned value or raised `NiFiAPIError` message, the number of poll GETs
issued, and the number of delete-query calls issued. -/
structure ProvenanceRun where
  result : Except String ProvenanceEventsResponse
  polls : Nat
  deletes : Nat
deriving Repr

/-- The polling loop (`nifi_client.py:480-543`), fuelled by the remaining
iterations of `range(max_polls)`; `i` is the current poll index.  Returns the
body outcome together with the number of polls and deletes issued inside the
loop (the timeout cleanup at `nifi_client.py:542` included). -/
def provenancePollLoop (env : ProvenanceEnv) (processorId : String)
    (maxResults : Nat) :
    Nat → Nat → Except NifiFailure ProvenanceEventsResponse × Nat × Nat
  | _, 0 =>
    let _u := deleteProvenanceQueryCall (env.deleteOutcome 120)
    (.error (.api "Provenance query timed out"), 0, 1)
  | i, fuel + 1 =>
    match env.poll i with
    | .error f => (.error f, 1, 0)
    | .ok pd =>
      if pd.status = some "FINISHED" then
        let _u := deleteProvenanceQueryCall (env.deleteOutcome i)
        (.ok (buildProvenanceResponse processorId maxResults pd.results env.now), 1, 1)
      else if pd.status = some "FAILED" then
        let _u := deleteProvenanceQueryCall (env.deleteOutcome i)
        (.error (.api ("Provenance query failed: " ++ pd.message.getD "Query failed")), 1, 1)
      else
        let r := provenancePollLoop env processorId maxResults (i + 1) fuel
        (r.1, r.2.1 + 1, r.2.2)

/-- The body of the inner `try` (`nifi_client.py:414-543`): submit, read the
query id, take the inline path when `results.provenanceEvents` is non-empty,
otherwise poll.  Returns the outcome, the query id known at exception time,
and the poll/delete counts of the body itself. -/
def innerProvenanceQuery (env : ProvenanceEnv) (processorId : String)
    (maxResults : Nat) (startDate endDate : Option String) :
    Except NifiFailure ProvenanceEventsResponse × Option String × Nat × Nat :=
  match env.submit (buildProvenanceQueryBody processorId maxResults startDate endDate) with
  | .error f => (.error f, none, 0, 0)
  | .ok sd =>
    match sd.queryId with
    | none => (.error (.api "Failed to get query ID from provenance request"), none, 0, 0)
    | some qid =>
      match sd.results.provenanceEvents with
      | [] =>
        let r := provenancePollLoop env processorId maxResults 0 120
        (r.1, some qid, r.2.1, r.2.2)
      | _ :: _ =>
        let _u := deleteProvenanceQueryCall (env.deleteOutcome 0)
        (.ok (buildProvenanceResponse processorId maxResults sd.results env.now),
         some qid, 0, 1)

/-- The exception translation done by the handlers at
`nifi_client.py:545-563`: an `httpx.HTTPStatusError` becomes
`NiFiAPIError("HTTP error: {code}")`, a `NiFiAPIError` is re-raised as is,
and any other exception becomes
`NiFiAPIError("Failed to get provenance events: {e}")`. -/
def provenanceFailureMessage : NifiFailure → String
  | .api m => m
  | .http c => "HTTP error: " ++ toString c
  | .exc m => "Failed to get provenance events: " ++ m

/-- `get_provenance_events` (`nifi_client.py:364-563`): runs the inner body;
on an exception the inner handlers issue one more best-effort delete when a
query id was obtained, then the error is translated and re-raised. -/
def getProvenanceEvents (env : ProvenanceEnv) (processorId : String)
    (maxResults : Nat) (startDate endDate : Option String) : ProvenanceRun :=
  match innerProvenanceQuery env processorId maxResults startDate endDate with
  | (.ok r, _, p, d) => { result := .ok r, polls := p, deletes := d }
  | (.error f, some _, p, d) =>
    let _u := deleteProvenanceQueryCall (env.deleteOutcome (p + 121))
    { result := .error (provenanceFailureMessage f), polls := p, deletes := d + 1 }
  | (.error f, none, p, d) =>
    { result := .error (provenanceFailureMessage f), polls := p, deletes := d }

/-! ## Hierarchy walker data model (`models.py`, `nifi_client.py:196-315`) -/

/-- The `component` object of a process-group entity. -/
structure RawPGComponent where
  id : Option String := none
  name : Option String := none
  comments : Option String := none
  parentGroupId : Option String := none
  versionControlInformation : Option String := none
deriving Repr, DecidableEq

/-- The entity returned by `GET /process-groups/{id}`: the `component`
object plus the top-level counters read with `.get(_, 0)`. -/
structure RawProcessGroupEntity where
  component : Option RawPGComponent := none
  runningCount : Option Int := none
  stoppedCount : Option Int := none
  invalidCount : Option Int := none
  disabledCount : Option Int := none
  activeRemotePortCount : Option Int := none
  inactiveRemotePortCount : Option Int := none
  upToDateCount : Option Int := none
  locallyModifiedCount : Option Int := none
  staleCount : Option Int := none
  locallyModifiedAndStaleCount : Option Int := none
  syncFailureCount : Option Int := none
  inputPortCount : Option Int := none
  outputPortCount : Option Int := none
deriving Repr, DecidableEq

/-- The `component` object of a processor entity in a flow payload. -/
structure RawProcessorComponent where
  id : Option String := none
  name : Option String := none
  type : Option String := none
  state : Option String := none
  comments : Option String := none
  style : Option String := none
  relationships : Option (List String) := none
  config : Option String := none
  inputRequirement : Option String := none
deriving Repr, DecidableEq

/-- A processor entity in a flow payload (`proc.get("component", {})`). -/
structure RawProcessorEntity where
  component : Option RawProcessorComponent := none
deriving Repr, DecidableEq

/-- The `source`/`destination` object of a connection component. -/
structure RawConnectionEndpoint where
  id : Option String := none
  name : Option String := none
  type : Option String := none
deriving Repr, DecidableEq

/-- The `component` object of a connection entity in a flow payload. -/
structure RawConnectionComponent where
  id : Option String := none
  name : Option String := none
  source : Option RawConnectionEndpoint := none
  destination : Option RawConnectionEndpoint := none
  selectedRelationships : Option (List String) := none
  backPressureDataSizeThreshold : Option String := none
  backPressureObjectThreshold : Option Int := none
  flowFileExpiration : Option String := none
deriving Repr, DecidableEq

/-- A connection entity in a flow payload (`conn.get("component", {})`). -/
structure RawConnectionEntity where
  component : Option RawConnectionComponent := none
deriving Repr, DecidableEq

/-- A child process-group entity in a flow payload: its `id` and its
`component` object (used for the name fallback at `nifi_client.py:310`). -/
structure RawChildGroupEntity where
  id : Option String := none
  component : Option RawPGComponent := none
deriving Repr, DecidableEq

/-- The `flow` object of a flow payload: processors, connections and child
process groups. -/
structure RawFlow where
  processors : List RawProcessorEntity := []
  connections : List RawConnectionEntity := []
  processGroups : List RawChildGroupEntity := []
deriving Repr, DecidableEq

/-- The `processGroupFlow` object of the entity returned by
`GET /flow/process-groups/{id}`. -/
structure RawProcessGroupFlow where
  flow : Option RawFlow := none
deriving Repr, DecidableEq

/-- The entity returned by `GET /flow/process-groups/{id}`. -/
structure RawFlowEntity where
  processGroupFlow : Option RawProcessGroupFlow := none
deriving Repr, DecidableEq

/-- The `Processor` model (`models.py:28-44`). -/
structure Processor where
  id : String
  name : String
  type : String
  state : String
  comments : Option String := none
  style : Option String := none
  relationships : List String := []
  config : Option String := none
  input_requirement : Option String := none
deriving Repr, DecidableEq

/-- Processor extraction (`nifi_client.py:227-237`) with the source's
defaults.  In the typed embedding construction is total, so the
per-processor `except` (which only fires on ill-typed payloads) has no
failing case here. -/
def parseProcessor (c : RawProcessorComponent) : Processor :=
  { id := c.id.getD "", name := c.name.getD "Unknown",
    type := c.type.getD "Unknown", state := c.state.getD "STOPPED",
    comments := c.comments, style := c.style,
    relationships := c.relationships.getD [], config := c.config,
    input_requirement := c.inputRequirement }

/-- The `Connection` model (`models.py:47-66`). -/
structure Connection where
  id : String
  name : Option String := none
  source_id : String
  source_name : Option String := none
  source_type : Option String := none
  destination_id : String
  destination_name : Option String := none
  destination_type : Option String := none
  selected_relationships : List String := []
  backpressure_data_size_threshold : Option String := none
  backpressure_object_threshold : Option Int := none
  flowfile_expiration : Option String := none
deriving Repr, DecidableEq

/-- Connection extraction (`nifi_client.py:247-260`) with the source's
defaults. -/
def parseConnection (c : RawConnectionComponent) : Connection :=
  { id := c.id.getD "", name := c.name,
    source_id := ((c.source.getD {}).id).getD "",
    source_name := (c.source.getD {}).name,
    source_type := (c.source.getD {}).type,
    destination_id := ((c.destination.getD {}).id).getD "",
    destination_name := (c.destination.getD {}).name,
    destination_type := (c.destination.getD {}).type,
    selected_relationships := c.selectedRelationships.getD [],
    backpressure_data_size_threshold := c.backPressureDataSizeThreshold,
    backpressure_object_threshold := c.backPressureObjectThreshold,
    flowfile_expiration := c.flowFileExpiration }

/-- The `ProcessGroupDetail` model (`models.py:69-97`); fields absent from a
constructor call take these declared defaults. -/
structure ProcessGroupDetail where
  id : String
  name : String
  comments : Option String := none
  parent_group_id : Option String := none
  version_control_information : Option String := none
  running_count : Int := 0
  stopped_count : Int := 0
  invalid_count : Int := 0
  disabled_count : Int := 0
  active_remote_port_count : Int := 0
  inactive_remote_port_count : Int := 0
  up_to_date_count : Int := 0
  locally_modified_count : Int := 0
  stale_count : Int := 0
  locally_modified_and_stale_count : Int := 0
  sync_failure_count : Int := 0
  input_port_count : Int := 0
  output_port_count : Int := 0
  processors : List Processor := []
  connections : List Connection := []
  children : List ProcessGroupDetail := []
deriving Repr

/-- One upstream fetch issued by the hierarchy walker:
`get_process_group(id)` or `get_process_group_flow(id)`. -/
inductive UpstreamCall where
  | pg (groupId : String)
  | flow (groupId : String)
deriving Repr, DecidableEq

/-- Upstream environment for a hierarchy walk: the outcome of
`get_process_group` and `get_process_group_flow` per group id (the `String`
error is the raised `NiFiAPIError` message). -/
structure HierarchyEnv where
  processGroup : String → Except String RawProcessGroupEntity
  processGroupFlow : String → Except String RawFlowEntity

/-- The degraded stand-in child appended at `nifi_client.py:308-313` when
recursing into a child fails: same id, the child's known component name or
the `"Error Loading"` sentinel, `comments` set to the error text, all other
fields left at the model defaults (no processors, connections or children). -/
def errorChildNode (childId : String) (childComponent : Option RawPGComponent)
    (msg : String) : ProcessGroupDetail :=
  { id := childId,
    name := ((childComponent.getD {}).name).getD "Error Loading",
    comments := some ("Error: " ++ msg),
    children := [] }

/-- `get_process_group_hierarchy` (`nifi_client.py:196-315`) together with
its upstream-call trace.  The depth guard fails the call before any fetch;
each truthy child id is recursed into at `depth + 1`, and a failing child is
replaced by `errorChildNode` while its siblings continue. -/
def getProcessGroupHierarchy (env : HierarchyEnv) (groupId : String)
    (depth maxDepth : Nat) :
    Except String ProcessGroupDetail × List UpstreamCall :=
  if _h : depth > maxDepth then
    (.error "Max recursion depth reached", [])
  else
    match env.processGroup groupId with
    | .error e => (.error e, [.pg groupId])
    | .ok pgData =>
      match env.processGroupFlow groupId with
      | .error e => (.error e, [.pg groupId, .flow groupId])
      | .ok flowEntity =>
        let component := pgData.component.getD {}
        let flow := ((flowEntity.processGroupFlow.getD {}).flow).getD {}
        let processors := flow.processors.map
          (fun p => parseProcessor (p.component.getD {}))
        let connections := flow.connections.map
          (fun c => parseConnection (c.component.getD {}))
        let childResults := flow.processGroups.filterMap (fun child =>
          match child.id with
          | none => none
          | some childId =>
            if childId = "" then none
            else
              match getProcessGroupHierarchy env childId (depth + 1) maxDepth with
              | (.ok d, calls) => some (d, calls)
              | (.error e, calls) => some (errorChildNode childId child.component e, calls))
        (.ok { id := component.id.getD groupId,
               name := component.name.getD "Unknown",
               comments := component.comments,
               parent_group_id := component.parentGroupId,
               version_control_information := component.versionControlInformation,
               running_count := pgData.runningCount.getD 0,
               stopped_count := pgData.stoppedCount.getD 0,
               invalid_count := pgData.invalidCount.getD 0,
               disabled_count := pgData.disabledCount.getD 0,
               active_remote_port_count := pgData.activeRemotePortCount.getD 0,
               inactive_remote_port_count := pgData.inactiveRemotePortCount.getD 0,
               up_to_date_count := pgData.upToDateCount.getD 0,
               locally_modified_count := pgData.locallyModifiedCount.getD 0,
               stale_count := pgData.staleCount.getD 0,
               locally_modified_and_stale_count := pgData.locallyModifiedAndStaleCount.getD 0,
               sync_failure_count := pgData.syncFailureCount.getD 0,
               input_port_count := pgData.inputPortCount.getD 0,
               output_port_count := pgData.outputPortCount.getD 0,
               processors := processors,
               connections := connections,
               children := childResults.map Prod.fst },
         [.pg groupId, .flow groupId] ++ (childResults.map Prod.snd).flatten)
termination_by maxDepth + 1 - depth
decreasing_by simp_wf; omega

/-- The truthy child-group entries of a flow, in upstream order: the pairs
`(child_id, component)` for which `child_id` is present and non-empty
(`if child_id:` at `nifi_client.py:297`). -/
def validChildEntries (children : List RawChildGroupEntity) :
    List (String × Option RawPGComponent) :=
  children.filterMap (fun child =>
    match child.id with
    | none => none
    | some childId =>
      if childId = "" then none else some (childId, child.component))

/-- What one truthy child entry contributes to the parent's `children` list:
the fully resolved subtree on success, the degraded stand-in on failure
(`nifi_client.py:298-313`). -/
def resolveChildOutcome (env : HierarchyEnv) (depth maxDepth : Nat)
    (entry : String × Option RawPGComponent) : ProcessGroupDetail :=
  match getProcessGroupHierarchy env entry.1 (depth + 1) maxDepth with
  | (.ok d, _) => d
  | (.error e, _) => errorChildNode entry.1 entry.2 e

/-! ## Flow status (`models.py:100-120`, `nifi_client.py:327-362`) -/

/-- The `controllerStatus` object of the `GET /flow/status` payload: every
field may be absent. -/
structure ControllerStatusPayload where
  activeThreadCount : Option Int := none
  queued : Option String := none
  queuedSize : Option String := none
  bytesQueued : Option Int := none
  flowFilesQueued : Option Int := none
  bytesRead : Option Int := none
  bytesWritten : Option Int := none
  bytesReceived : Option Int := none
  bytesSent : Option Int := none
  flowFilesReceived : Option Int := none
  flowFilesSent : Option Int := none
  flowFilesTransferred : Option Int := none
  bytesTransferred : Option Int := none
deriving Repr, DecidableEq

/-- The `GET /flow/status` payload (`data.get("controllerStatus", {})`). -/
structure FlowStatusPayload where
  controllerStatus : Option ControllerStatusPayload := none
deriving Repr, DecidableEq

/-- The `FlowStatus` model (`models.py:100-120`): the field defaults are the
all-zero value returned by a bare `FlowStatus()`. -/
structure FlowStatus where
  active_thread_count : Int := 0
  queued_count : String := "0"
  queued_size : String := "0 bytes"
  bytes_queued : Int := 0
  flowfiles_queued : Int := 0
  bytes_read : Int := 0
  bytes_written : Int := 0
  bytes_received : Int := 0
  bytes_sent : Int := 0
  flowfiles_received : Int := 0
  flowfiles_sent : Int := 0
  flowfiles_transferred : Int := 0
  bytes_transferred : Int := 0
deriving Repr, DecidableEq

/-- The `FlowStatus(...)` construction at `nifi_client.py:345-359`, reading
each counter with its default. -/
def flowStatusFromControllerStatus (cs : ControllerStatusPayload) : FlowStatus :=
  { active_thread_count := cs.activeThreadCount.getD 0,
    queued_count := cs.queued.getD "0",
    queued_size := cs.queuedSize.getD "0 bytes",
    bytes_queued := cs.bytesQueued.getD 0,
    flowfiles_queued := cs.flowFilesQueued.getD 0,
    bytes_read := cs.bytesRead.getD 0,
    bytes_written := cs.bytesWritten.getD 0,
    bytes_received := cs.bytesReceived.getD 0,
    bytes_sent := cs.bytesSent.getD 0,
    flowfiles_received := cs.flowFilesReceived.getD 0,
    flowfiles_sent := cs.flowFilesSent.getD 0,
    flowfiles_transferred := cs.flowFilesTransferred.getD 0,
    bytes_transferred := cs.bytesTransferred.getD 0 }

/-- `get_flow_status` (`nifi_client.py:327-362`): on any upstream failure the
`except` returns a bare `FlowStatus()` — never `None`, never an exception. -/
def getFlowStatus (upstream : Except String FlowStatusPayload) : FlowStatus :=
  match upstream with
  | .ok data => flowStatusFromControllerStatus (data.controllerStatus.getD {})
  | .error _ => {}

/-! ## Health check (`nifi_client.py:79-97`, `main.py:79-94`) -/

/-- The dictionary returned by `NiFiClient.health_check`: `{"available":
True, "data": ...}` on success, `{"available": False, "error": str(e)}` on
any exception; the JSON payload of `/flow/about` is kept opaque. -/
structure HealthCheckDict where
  available : Bool
  dataBlob : Option String := none
  error : Option String := none
deriving Repr, DecidableEq

/-- `health_check` (`nifi_client.py:79-97`): a total function of the
upstream outcome — every exception, authentication and connectivity failure
included, is caught and turned into the unavailable dictionary. -/
def healthCheck (upstream : Except String String) : HealthCheckDict :=
  match upstream with
  | .ok data => { available := true, dataBlob := some data }
  | .error e => { available := false, error := some e }

/-- The `HealthCheckResponse` model (`models.py:123-129`). -/
structure HealthCheckResponse where
  status : String
  nifi_api_url : String
  nifi_available : Bool := false
  message : Option String := none
deriving Repr, DecidableEq

/-- The `/api/health` handler (`main.py:79-94`): always answers with a
health payload built from the `health_check` dictionary. -/
def healthEndpoint (upstream : Except String String) (apiUrl : String) :
    HealthCheckResponse :=
  let health := healthCheck upstream
  { status := if health.available then "healthy" else "unhealthy",
    nifi_api_url := apiUrl,
    nifi_available := health.available,
    message := if health.available then some "All systems operational"
               else health.error }

/-! ## Provenance event content (`nifi_client.py:629-672`, `main.py:271-317`) -/

/-- Python `sub in s` for the non-empty substrings tested here. -/
def containsSubstring (s sub : String) : Bool :=
  (s.splitOn sub).length ≥ 2

/-- The raw HTTP response of the content fetch: the `content-type` header
(defaulted to `""`), the decoded text when `response.text` succeeds, and the
raw body bytes. -/
structure ContentFetchResult where
  contentTypeHeader : String := ""
  textValue : Option String := none
  bodyBytes : ByteArray := ByteArray.empty

/-- The value returned by `get_provenance_event_content`: decoded text or
raw bytes. -/
inductive ContentValue where
  | text (s : String)
  | binary (b : ByteArray)

/-- Exceptions that escape `get_provenance_event_content`: the `ValueError`
raised by the side guard before the `try`, or a `NiFiAPIError` (every other
exception inside the `try` is wrapped into one at
`nifi_client.py:665-672`). -/
inductive ClientRaise where
  | valueError (msg : String)
  | apiError (msg : String)

/-- `get_provenance_event_content` (`nifi_client.py:629-672`). The guard
message in the source reads `content_type must be 'input' or 'output', got
'{content_type}'`; the quotes around the words are dropped here. -/
def getProvenanceEventContentClient (upstream : Except NifiFailure ContentFetchResult)
    (contentType : String) : Except ClientRaise ContentValue :=
  if contentType ≠ "input" ∧ contentType ≠ "output" then
    .error (.valueError ("content_type must be input or output, got " ++ contentType))
  else
    match upstream with
    | .error (.http c) => .error (.apiError ("HTTP error: " ++ toString c))
    | .error (.api m) => .error (.apiError m)
    | .error (.exc m) =>
      .error (.apiError ("Failed to get provenance event " ++ contentType ++ " content: " ++ m))
    | .ok r =>
      if containsSubstring r.contentTypeHeader "text/"
          || containsSubstring r.contentTypeHeader "application/json" then
        match r.textValue with
        | some t => .ok (.text t)
        | none => .ok (.binary r.bodyBytes)
      else .ok (.binary r.bodyBytes)

/-- The base64 alphabet used by `base64.b64encode`. -/
def base64Chars : List Char :=
  "ABCDEFGHIJKLMNOPQRSTUVWXYZabcdefghijklmnopqrstuvwxyz0123456789+/".toList

/-- base64 encoding of a byte list, three bytes to four characters with `=`
padding, as `base64.b64encode(...).decode("utf-8")` produces. -/
def base64EncodeList : List Nat → List Char
  | [] => []
  | [b1] =>
    [base64Chars.getD (b1 / 4) 'A',
     base64Chars.getD (b1 % 4 * 16) 'A', '=', '=']
  | [b1, b2] =>
    [base64Chars.getD (b1 / 4) 'A',
     base64Chars.getD (b1 % 4 * 16 + b2 / 16) 'A',
     base64Chars.getD (b2 % 16 * 4) 'A', '=']
  | b1 :: b2 :: b3 :: rest =>
    base64Chars.getD (b1 / 4) 'A' ::
    base64Chars.getD (b1 % 4 * 16 + b2 / 16) 'A' ::
    base64Chars.getD (b2 % 16 * 4 + b3 / 64) 'A' ::
    base64Chars.getD (b3 % 64) 'A' :: base64EncodeList rest

/-- base64 encoding of a byte array as a string. -/
def base64Encode (b : ByteArray) : String :=
  String.mk (base64EncodeList (b.toList.map (fun u => u.toNat)))

/-- Exceptions as seen by a handler's `except` chain: a `NiFiAPIError` or
any other exception. -/
inductive RaisedException where
  | nifiApi (msg : String)
  | internal (msg : String)

/-- The `except` chain shared by the API handlers (`main.py:312-317` for the
content endpoint): `NiFiAPIError` becomes HTTP 502 with a descriptive
detail, any other exception becomes HTTP 500. -/
def handlerStatusFor : RaisedException → Nat × String
  | .nifiApi m => (502, "NiFi API error: " ++ m)
  | .internal m => (500, "Internal server error: " ++ m)

/-- Maps an exception escaping `get_provenance_event_content` to what the
handler's `except` chain sees: a `ValueError` is not a `NiFiAPIError`, so it
falls to the generic branch. -/
def clientRaiseToException : ClientRaise → RaisedException
  | .apiError m => .nifiApi m
  | .valueError m => .internal m

/-- The JSON answer of the content endpoint: the HTTP status, the error
detail for 4xx/5xx, the content payload for 200, and whether the NiFi client
was invoked at all. -/
structure ContentEndpointResult where
  status : Nat
  detail : Option String := none
  dataValue : Option String := none
  isText : Option Bool := none
  upstreamCalled : Bool

/-- The `/api/provenance-events/{event_id}/content/{content_type}` handler
(`main.py:271-317`): the side guard answers 400 before the NiFi client is
invoked; client failures are mapped by the `except` chain; on success binary
content is decoded as UTF-8 when possible and base64-framed otherwise. -/
def getProvenanceEventContentEndpoint (upstream : Except NifiFailure ContentFetchResult)
    (contentType : String) : ContentEndpointResult :=
  if contentType ≠ "input" ∧ contentType ≠ "output" then
    { status := 400, detail := some "content_type must be input or output",
      upstreamCalled := false }
  else
    match getProvenanceEventContentClient upstream contentType with
    | .error e =>
      let sd := handlerStatusFor (clientRaiseToException e)
      { status := sd.1, detail := some sd.2, upstreamCalled := true }
    | .ok (.text s) =>
      { status := 200, dataValue := some s, isText := some true,
        upstreamCalled := true }
    | .ok (.binary b) =>
      match String.fromUTF8? b with
      | some s =>
        { status := 200, dataValue := some s, isText := some true,
          upstreamCalled := true }
      | none =>
        { status := 200, dataValue := some (base64Encode b),
          isText := some false, upstreamCalled := true }

/-! ## Derived notions and concrete sample environments -/

/-- The descending event order: an earlier list element has an `event_time`
at least that of every later one. -/
def eventTimeGe (a b : ProvenanceEvent) : Prop :=
  b.event_time ≤ a.event_time

/-- A raw provenance event with all required fields present. -/
def sampleRawEvent (i t : String) : RawProvenanceEvent :=
  { id := some i, eventId := some 1, eventTime := some t,
    eventType := some "CREATE", flowFileUuid := some "ff",
    componentId := some "proc-1", componentType := some "Processor" }

/-- Inline results: three events in non-sorted upstream order and an
upstream-reported total of `"1,234"`. -/
def sampleInlineResults : ProvenanceResults :=
  { provenanceEvents := [sampleRawEvent "a" "2024-01-01",
                         sampleRawEvent "b" "2024-03-01",
                         sampleRawEvent "c" "2024-02-01"],
    totalCount := none, total := some "1,234" }

/-- Environment whose submission answers inline results; every delete
attempt fails, exercising the best-effort cleanup. -/
def sampleEnvInline : ProvenanceEnv :=
  { submit := fun _ => .ok { queryId := some "q-inline", results := sampleInlineResults },
    poll := fun _ => .error (.exc "poll never reached"),
    deleteOutcome := fun _ => .error "delete refused",
    now := "2024-06-01T00:00:00" }

/-- Environment whose first poll reports a FAILED query. -/
def sampleEnvFailed : ProvenanceEnv :=
  { submit := fun _ => .ok { queryId := some "q-failed" },
    poll := fun _ => .ok { status := some "FAILED" },
    deleteOutcome := fun _ => .ok (),
    now := "2024-06-01T00:00:01" }

/-- Environment whose polls always report RUNNING, exhausting the loop. -/
def sampleEnvRunning : ProvenanceEnv :=
  { submit := fun _ => .ok { queryId := some "q-running" },
    poll := fun _ => .ok { status := some "RUNNING" },
    deleteOutcome := fun _ => .ok (),
    now := "2024-06-01T00:00:02" }

/-- Environment whose submission response carries no query id. -/
def sampleEnvNoQueryId : ProvenanceEnv :=
  { submit := fun _ => .ok { queryId := none, results := sampleInlineResults },
    poll := fun _ => .ok {},
    deleteOutcome := fun _ => .ok (),
    now := "2024-06-01T00:00:03" }

/-- Environment whose first poll raises an unexpected exception. -/
def sampleEnvPollCrash : ProvenanceEnv :=
  { submit := fun _ => .ok { queryId := some "q-crash" },
    poll := fun _ => .error (.exc "connection dropped"),
    deleteOutcome := fun _ => .ok (),
    now := "2024-06-01T00:00:04" }

/-- Inline results whose `total` string is present but unparseable. -/
def sampleUnparsedTotalResults : ProvenanceResults :=
  { provenanceEvents := [sampleRawEvent "a" "2024-01-01",
                         sampleRawEvent "b" "2024-03-01",
                         sampleRawEvent "c" "2024-02-01"],
    totalCount := none, total := some "abc" }

/-- Environment whose inline results carry the unparseable total. -/
def sampleEnvUnparsedTotal : ProvenanceEnv :=
  { submit := fun _ => .ok { queryId := some "q-unparsed", results := sampleUnparsedTotalResults },
    poll := fun _ => .error (.exc "poll never reached"),
    deleteOutcome := fun _ => .ok (),
    now := "2024-06-01T00:00:05" }

/-- A poll response that keeps the loop running: the GET succeeded and the
status is neither `FINISHED` nor `FAILED`. -/
def runningPollAt (env : ProvenanceEnv) (j : Nat) : Prop :=
  ∃ pd, env.poll j = .ok pd ∧ pd.status ≠ some "FINISHED" ∧ pd.status ≠ some "FAILED"

/-- Root process-group entity for the hierarchy samples. -/
def sampleRootEntity : RawProcessGroupEntity :=
  { component := some { id := some "root", name := some "NiFi Flow" },
    runningCount := some 2, stoppedCount := some 1 }

/-- The two child entities of the root flow below: `bad` without a component
object, `ok1` with a named component. -/
def sampleChildBad : RawChildGroupEntity := { id := some "bad" }

/-- The second child entity of the sample root flow. -/
def sampleChildOk : RawChildGroupEntity :=
  { id := some "ok1", component := some { name := some "Child One" } }

/-- Root flow with one fetchable and one unfetchable child. -/
def sampleRootFlowEntity : RawFlowEntity :=
  { processGroupFlow := some { flow := some { processGroups := [sampleChildBad, sampleChildOk] } } }

/-- Hierarchy environment: `root` resolves, fetching child `bad` raises, and
child `ok1` resolves with an empty flow. -/
def sampleHierarchyEnv : HierarchyEnv :=
  { processGroup := fun gid =>
      if gid = "bad" then .error "HTTP error: 500"
      else if gid = "root" then .ok sampleRootEntity
      else .ok { component := some { id := some gid, name := some ("group " ++ gid) } },
    processGroupFlow := fun gid =>
      if gid = "root" then .ok sampleRootFlowEntity
      else if gid = "bad" then .error "unreachable flow"
      else .ok { processGroupFlow := some { flow := some {} } } }

theorem pyCharListLt_iff_lex : ∀ as bs : List Char,
    pyCharListLt as bs = true ↔ List.Lex (fun a b => a < b) as bs := by
  intro as
  induction as with
  | nil =>
    intro bs
    cases bs with
    | nil =>
      constructor
      · intro h; simp [pyCharListLt] at h
      · intro h; cases h
    | cons b bs =>
      constructor
      · intro _; exact List.Lex.nil
      · intro _; rfl
  | cons a as ih =>
    intro bs
    cases bs with
    | nil =>
      constructor
      · intro h; simp [pyCharListLt] at h
      · intro h; cases h
    | cons b bs =>
      by_cases hab : a < b
      · constructor
        · intro _; exact List.Lex.rel hab
        · intro _; simp [pyCharListLt, hab]
      · by_cases hba : b < a
        · constructor
          · intro h; simp [pyCharListLt, hab, hba] at h
          · intro h
            exfalso
            cases h with
            | cons h => exact absurd hba (lt_irrefl a)
            | rel h => exact hab h
        · have heq : a = b := le_antisymm (not_lt.mp hba) (not_lt.mp hab)
          subst heq
          constructor
          · intro h
            have h' : pyCharListLt as bs = true := by
              simpa [pyCharListLt, hab, hba] using h
            exact List.Lex.cons ((ih bs).mp h')
          · intro h
            have h' : List.Lex (fun a b => a < b) as bs := by
              cases h with
              | cons h => exact h
              | rel h => exact absurd h hab
            simp [pyCharListLt, hab, hba, (ih bs).mpr h']

theorem pyStrLt_iff_lt (a b : String) : pyStrLt a b = true ↔ a < b := by
  rw [String.lt_iff_toList_lt]
  exact pyCharListLt_iff_lex a.toList b.toList

theorem pyStrLt_eq_false_iff_le (a b : String) : pyStrLt a b = false ↔ b ≤ a := by
  rw [← not_lt, ← pyStrLt_iff_lt a b]
  cases h : pyStrLt a b <;> simp

theorem mem_insertEventDesc {x z : ProvenanceEvent} :
    ∀ {l : List ProvenanceEvent}, z ∈ insertEventDesc x l ↔ z = x ∨ z ∈ l := by
  intro l
  induction l with
  | nil => simp [insertEventDesc]
  | cons y ys ih =>
    by_cases h : pyStrLt x.event_time y.event_time
    · rw [show insertEventDesc x (y :: ys) = y :: insertEventDesc x ys from by
        simp [insertEventDesc, h]]
      simp only [List.mem_cons, ih]
      tauto
    · rw [show insertEventDesc x (y :: ys) = x :: y :: ys from by
        simp [insertEventDesc, h]]
      simp only [List.mem_cons]

theorem pairwise_insertEventDesc {x : ProvenanceEvent} :
    ∀ {l : List ProvenanceEvent}, l.Pairwise eventTimeGe →
      (insertEventDesc x l).Pairwise eventTimeGe := by
  intro l
  induction l with
  | nil => intro _; simp [insertEventDesc, eventTimeGe]
  | cons y ys ih =>
    intro h
    rcases List.pairwise_cons.mp h with ⟨hy, hys⟩
    simp only [insertEventDesc]
    by_cases hlt : pyStrLt x.event_time y.event_time
    · simp only [hlt, if_true]
      refine List.pairwise_cons.mpr ⟨?_, ih hys⟩
      intro z hz
      rcases mem_insertEventDesc.mp hz with hzx | hzys
      · subst hzx
        exact le_of_lt ((pyStrLt_iff_lt _ _).mp hlt)
      · exact hy z hzys
    · simp only [hlt, if_false]
      have hyx : y.event_time ≤ x.event_time :=
        (pyStrLt_eq_false_iff_le _ _).mp (by simpa using hlt)
      refine List.pairwise_cons.mpr ⟨?_, h⟩
      intro z hz
      rcases List.mem_cons.mp hz with hzy | hzys
      · subst hzy; exact hyx
      · exact le_trans (hy z hzys) hyx

theorem pairwise_sortEventsDesc :
    ∀ l : List ProvenanceEvent, (sortEventsDesc l).Pairwise eventTimeGe := by
  intro l
  induction l with
  | nil => simp [sortEventsDesc]
  | cons x xs ih => exact pairwise_insertEventDesc ih

theorem buildProvenanceResponse_events_sorted (pid : String) (mr : Nat)
    (rd : ProvenanceResults) (now : String) :
    (buildProvenanceResponse pid mr rd now).events.Pairwise eventTimeGe := by
  simp only [buildProvenanceResponse]
  exact List.Pairwise.sublist (List.take_sublist _ _) (pairwise_sortEventsDesc _)

theorem buildProvenanceResponse_events_length_le (pid : String) (mr : Nat)
    (rd : ProvenanceResults) (now : String) :
    (buildProvenanceResponse pid mr rd now).events.length ≤ mr := by
  simp only [buildProvenanceResponse, List.length_take]
  omega

theorem buildProvenanceResponse_totalEvents (pid : String) (mr : Nat)
    (rd : ProvenanceResults) (now : String) :
    (buildProvenanceResponse pid mr rd now).totalEvents =
      computeTotalCount rd.totalCount rd.total rd.provenanceEvents.length := rfl

theorem provenancePollLoop_zero (env : ProvenanceEnv) (pid : String) (mr i : Nat) :
    provenancePollLoop env pid mr i 0 =
      (.error (.api "Provenance query timed out"), 0, 1) := rfl

theorem provenancePollLoop_step_error (env : ProvenanceEnv) (pid : String)
    (mr i fuel : Nat) (f : NifiFailure) (hp : env.poll i = .error f) :
    provenancePollLoop env pid mr i (fuel + 1) = (.error f, 1, 0) := by
  simp [provenancePollLoop, hp]

theorem provenancePollLoop_step_finished (env : ProvenanceEnv) (pid : String)
    (mr i fuel : Nat) (pd : PollProvenance) (hp : env.poll i = .ok pd)
    (hfin : pd.status = some "FINISHED") :
    provenancePollLoop env pid mr i (fuel + 1) =
      (.ok (buildProvenanceResponse pid mr pd.results env.now), 1, 1) := by
  simp [provenancePollLoop, hp, hfin]

theorem provenancePollLoop_step_failed (env : ProvenanceEnv) (pid : String)
    (mr i fuel : Nat) (pd : PollProvenance) (hp : env.poll i = .ok pd)
    (hfail : pd.status = some "FAILED") :
    provenancePollLoop env pid mr i (fuel + 1) =
      (.error (.api ("Provenance query failed: " ++ pd.message.getD "Query failed")),
       1, 1) := by
  have hfin : pd.status ≠ some "FINISHED" := by simp [hfail]
  simp [provenancePollLoop, hp, hfail, hfin]

theorem provenancePollLoop_step_running (env : ProvenanceEnv) (pid : String)
    (mr i fuel : Nat) (pd : PollProvenance) (hp : env.poll i = .ok pd)
    (hfin : pd.status ≠ some "FINISHED") (hfail : pd.status ≠ some "FAILED") :
    provenancePollLoop env pid mr i (fuel + 1) =
      ((provenancePollLoop env pid mr (i + 1) fuel).1,
       (provenancePollLoop env pid mr (i + 1) fuel).2.1 + 1,
       (provenancePollLoop env pid mr (i + 1) fuel).2.2) := by
  simp [provenancePollLoop, hp, hfin, hfail]

theorem provenancePollLoop_ok_shape (env : ProvenanceEnv) (pid : String) (mr : Nat) :
    ∀ (fuel i : Nat) (r : ProvenanceEventsResponse),
      (provenancePollLoop env pid mr i fuel).1 = .ok r →
      (∃ rd, r = buildProvenanceResponse pid mr rd env.now) ∧
      (provenancePollLoop env pid mr i fuel).2.2 = 1 := by
  intro fuel
  induction fuel with
  | zero =>
    intro i r h
    rw [provenancePollLoop_zero] at h
    simp at h
  | succ fuel ih =>
    intro i r h
    cases hp : env.poll i with
    | error f =>
      rw [provenancePollLoop_step_error env pid mr i fuel f hp] at h
      simp at h
    | ok pd =>
      by_cases hfin : pd.status = some "FINISHED"
      · rw [provenancePollLoop_step_finished env pid mr i fuel pd hp hfin] at h ⊢
        refine ⟨⟨pd.results, ?_⟩, rfl⟩
        simpa using h.symm
      · by_cases hfail : pd.status = some "FAILED"
        · rw [provenancePollLoop_step_failed env pid mr i fuel pd hp hfail] at h
          simp at h
        · rw [provenancePollLoop_step_running env pid mr i fuel pd hp hfin hfail] at h ⊢
          exact ih (i + 1) r h

theorem provenancePollLoop_skip (env : ProvenanceEnv) (pid : String) (mr : Nat) :
    ∀ (k i fuel : Nat), k ≤ fuel → (∀ j, j < k → runningPollAt env (i + j)) →
      provenancePollLoop env pid mr i fuel =
        ((provenancePollLoop env pid mr (i + k) (fuel - k)).1,
         (provenancePollLoop env pid mr (i + k) (fuel - k)).2.1 + k,
         (provenancePollLoop env pid mr (i + k) (fuel - k)).2.2) := by
  intro k
  induction k with
  | zero => intro i fuel _ _; simp
  | succ k ih =>
    intro i fuel hk hrun
    obtain ⟨fuel, rfl⟩ : ∃ f, fuel = f + 1 := ⟨fuel - 1, by omega⟩
    obtain ⟨pd, hpd, hfin, hfail⟩ := hrun 0 (by omega)
    simp only [Nat.add_zero] at hpd
    have hrest : ∀ j, j < k → runningPollAt env (i + 1 + j) := by
      intro j hj
      have := hrun (j + 1) (by omega)
      have harith : i + (j + 1) = i + 1 + j := by omega
      rwa [harith] at this
    rw [provenancePollLoop_step_running env pid mr i fuel pd hpd hfin hfail,
        ih (i + 1) fuel (by omega) hrest]
    have h1 : i + 1 + k = i + (k + 1) := by omega
    have h2 : fuel - k = fuel + 1 - (k + 1) := by omega
    rw [h1, h2]
    simp [Nat.add_assoc]

theorem provenancePollLoop_deleteOutcome_irrel (env : ProvenanceEnv)
    (d : Nat → Except String Unit) (pid : String) (mr : Nat) :
    ∀ fuel i, provenancePollLoop { env with deleteOutcome := d } pid mr i fuel =
      provenancePollLoop env pid mr i fuel := by
  intro fuel
  induction fuel with
  | zero => intro i; rfl
  | succ fuel ih =>
    intro i
    cases hp : env.poll i with
    | error f =>
      rw [provenancePollLoop_step_error env pid mr i fuel f hp,
          provenancePollLoop_step_error { env with deleteOutcome := d } pid mr i fuel f hp]
    | ok pd =>
      by_cases hfin : pd.status = some "FINISHED"
      · rw [provenancePollLoop_step_finished env pid mr i fuel pd hp hfin,
            provenancePollLoop_step_finished { env with deleteOutcome := d } pid mr i fuel pd hp hfin]
      · by_cases hfail : pd.status = some "FAILED"
        · rw [provenancePollLoop_step_failed env pid mr i fuel pd hp hfail,
              provenancePollLoop_step_failed { env with deleteOutcome := d } pid mr i fuel pd hp hfail]
        · rw [provenancePollLoop_step_running env pid mr i fuel pd hp hfin hfail,
              provenancePollLoop_step_running { env with deleteOutcome := d } pid mr i fuel pd hp hfin hfail,
              ih (i + 1)]

theorem getProcessGroupHierarchy_guard (env : HierarchyEnv) (groupId : String)
    (depth maxDepth : Nat) (h : depth > maxDepth) :
    getProcessGroupHierarchy env groupId depth maxDepth =
      (.error "Max recursion depth reached", []) := by
  rw [getProcessGroupHierarchy]
  simp [h]

theorem childResults_spec (env : HierarchyEnv) (depth maxDepth : Nat) :
    ∀ l : List RawChildGroupEntity,
      (l.filterMap (fun child =>
        match child.id with
        | none => none
        | some childId =>
          if childId = "" then none
          else
            match getProcessGroupHierarchy env childId (depth + 1) maxDepth with
            | (.ok d, calls) => some (d, calls)
            | (.error e, calls) => some (errorChildNode childId child.component e, calls))) =
      (validChildEntries l).map (fun e =>
        (resolveChildOutcome env depth maxDepth e,
         (getProcessGroupHierarchy env e.1 (depth + 1) maxDepth).2)) := by
  intro l
  induction l with
  | nil => rfl
  | cons c rest ih =>
    cases hc : c.id with
    | none => simp [validChildEntries, hc, ih, List.filterMap_cons]
    | some cid =>
      by_cases hemp : cid = ""
      · simp [validChildEntries, hc, hemp, ih, List.filterMap_cons]
      · cases hrec : getProcessGroupHierarchy env cid (depth + 1) maxDepth with
        | mk res calls =>
          cases res with
          | ok d =>
            simp [validChildEntries, hc, hemp, hrec, resolveChildOutcome, ih,
              List.filterMap_cons]
          | error e =>
            simp [validChildEntries, hc, hemp, hrec, resolveChildOutcome, ih,
              List.filterMap_cons]

theorem getProcessGroupHierarchy_ok_eq (env : HierarchyEnv) (groupId : String)
    (depth maxDepth : Nat) (pgData : RawProcessGroupEntity)
    (flowEntity : RawFlowEntity) (hd : depth ≤ maxDepth)
    (hpg : env.processGroup groupId = .ok pgData)
    (hflow : env.processGroupFlow groupId = .ok flowEntity) :
    getProcessGroupHierarchy env groupId depth maxDepth =
      (.ok { id := (pgData.component.getD {}).id.getD groupId,
             name := (pgData.component.getD {}).name.getD "Unknown",
             comments := (pgData.component.getD {}).comments,
             parent_group_id := (pgData.component.getD {}).parentGroupId,
             version_control_information :=
               (pgData.component.getD {}).versionControlInformation,
             running_count := pgData.runningCount.getD 0,
             stopped_count := pgData.stoppedCount.getD 0,
             invalid_count := pgData.invalidCount.getD 0,
             disabled_count := pgData.disabledCount.getD 0,
             active_remote_port_count := pgData.activeRemotePortCount.getD 0,
             inactive_remote_port_count := pgData.inactiveRemotePortCount.getD 0,
             up_to_date_count := pgData.upToDateCount.getD 0,
             locally_modified_count := pgData.locallyModifiedCount.getD 0,
             stale_count := pgData.staleCount.getD 0,
             locally_modified_and_stale_count :=
               pgData.locallyModifiedAndStaleCount.getD 0,
             sync_failure_count := pgData.syncFailureCount.getD 0,
             input_port_count := pgData.inputPortCount.getD 0,
             output_port_count := pgData.outputPortCount.getD 0,
             processors :=
               (((flowEntity.processGroupFlow.getD {}).flow).getD {}).processors.map
                 (fun p => parseProcessor (p.component.getD {})),
             connections :=
               (((flowEntity.processGroupFlow.getD {}).flow).getD {}).connections.map
                 (fun c => parseConnection (c.component.getD {})),
             children :=
               (validChildEntries
                 (((flowEntity.processGroupFlow.getD {}).flow).getD {}).processGroups).map
                 (resolveChildOutcome env depth maxDepth) },
       [.pg groupId, .flow groupId] ++
         ((validChildEntries
             (((flowEntity.processGroupFlow.getD {}).flow).getD {}).processGroups).map
           (fun e => (getProcessGroupHierarchy env e.1 (depth + 1) maxDepth).2)).flatten) := by
  have hd' : ¬ depth > maxDepth := by omega
  rw [getProcessGroupHierarchy]
  simp only [hd', dif_neg, not_false_iff, hpg, hflow,
    childResults_spec env depth maxDepth, List.map_map]
  rfl

theorem innerProvenanceQuery_submit_error (env : ProvenanceEnv) (pid : String)
    (mr : Nat) (sd ed : Option String) (f : NifiFailure)
    (hs : env.submit (buildProvenanceQueryBody pid mr sd ed) = .error f) :
    innerProvenanceQuery env pid mr sd ed = (.error f, none, 0, 0) := by
  simp [innerProvenanceQuery, hs]

theorem innerProvenanceQuery_no_queryId (env : ProvenanceEnv) (pid : String)
    (mr : Nat) (sd ed : Option String) (s : SubmitProvenance)
    (hs : env.submit (buildProvenanceQueryBody pid mr sd ed) = .ok s)
    (hq : s.queryId = none) :
    innerProvenanceQuery env pid mr sd ed =
      (.error (.api "Failed to get query ID from provenance request"), none, 0, 0) := by
  simp [innerProvenanceQuery, hs, hq]

theorem innerProvenanceQuery_inline (env : ProvenanceEnv) (pid : String)
    (mr : Nat) (sd ed : Option String) (s : SubmitProvenance) (qid : String)
    (ev : RawProvenanceEvent) (rest : List RawProvenanceEvent)
    (hs : env.submit (buildProvenanceQueryBody pid mr sd ed) = .ok s)
    (hq : s.queryId = some qid)
    (hev : s.results.provenanceEvents = ev :: rest) :
    innerProvenanceQuery env pid mr sd ed =
      (.ok (buildProvenanceResponse pid mr s.results env.now), some qid, 0, 1) := by
  simp [innerProvenanceQuery, hs, hq, hev]

theorem innerProvenanceQuery_poll (env : ProvenanceEnv) (pid : String)
    (mr : Nat) (sd ed : Option String) (s : SubmitProvenance) (qid : String)
    (hs : env.submit (buildProvenanceQueryBody pid mr sd ed) = .ok s)
    (hq : s.queryId = some qid)
    (hev : s.results.provenanceEvents = []) :
    innerProvenanceQuery env pid mr sd ed =
      ((provenancePollLoop env pid mr 0 120).1, some qid,
       (provenancePollLoop env pid mr 0 120).2.1,
       (provenancePollLoop env pid mr 0 120).2.2) := by
  simp [innerProvenanceQuery, hs, hq, hev]

theorem provenancePollLoop_deletes_le_one (env : ProvenanceEnv) (pid : String)
    (mr : Nat) : ∀ fuel i, (provenancePollLoop env pid mr i fuel).2.2 ≤ 1 := by
  intro fuel
  induction fuel with
  | zero => intro i; rw [provenancePollLoop_zero]
  | succ fuel ih =>
    intro i
    cases hp : env.poll i with
    | error f =>
      rw [provenancePollLoop_step_error env pid mr i fuel f hp]
      exact Nat.zero_le 1
    | ok pd =>
      by_cases hfin : pd.status = some "FINISHED"
      · rw [provenancePollLoop_step_finished env pid mr i fuel pd hp hfin]
      · by_cases hfail : pd.status = some "FAILED"
        · rw [provenancePollLoop_step_failed env pid mr i fuel pd hp hfail]
        · rw [provenancePollLoop_step_running env pid mr i fuel pd hp hfin hfail]
          exact ih (i + 1)

theorem innerProvenanceQuery_ok_shape (env : ProvenanceEnv) (pid : String)
    (mr : Nat) (sd ed : Option String) (r : ProvenanceEventsResponse)
    (h : (innerProvenanceQuery env pid mr sd ed).1 = .ok r) :
    (∃ rd, r = buildProvenanceResponse pid mr rd env.now) ∧
    (innerProvenanceQuery env pid mr sd ed).2.2.2 = 1 := by
  cases hs : env.submit (buildProvenanceQueryBody pid mr sd ed) with
  | error f =>
    rw [innerProvenanceQuery_submit_error env pid mr sd ed f hs] at h
    simp at h
  | ok s =>
    cases hq : s.queryId with
    | none =>
      rw [innerProvenanceQuery_no_queryId env pid mr sd ed s hs hq] at h
      simp at h
    | some qid =>
      cases hev : s.results.provenanceEvents with
      | nil =>
        rw [innerProvenanceQuery_poll env pid mr sd ed s qid hs hq hev] at h ⊢
        simp only at h
        exact provenancePollLoop_ok_shape env pid mr 120 0 r h
      | cons ev rest =>
        rw [innerProvenanceQuery_inline env pid mr sd ed s qid ev rest hs hq hev] at h ⊢
        refine ⟨⟨s.results, ?_⟩, rfl⟩
        simpa using h.symm

theorem getProvenanceEvents_deleteOutcome_irrel (env : ProvenanceEnv)
    (d : Nat → Except String Unit) (pid : String) (mr : Nat)
    (sd ed : Option String) :
    getProvenanceEvents { env with deleteOutcome := d } pid mr sd ed =
      getProvenanceEvents env pid mr sd ed := by
  cases hs : env.submit (buildProvenanceQueryBody pid mr sd ed) with
  | error f =>
    rw [getProvenanceEvents, getProvenanceEvents,
        innerProvenanceQuery_submit_error env pid mr sd ed f hs,
        innerProvenanceQuery_submit_error { env with deleteOutcome := d } pid mr sd ed f hs]
  | ok s =>
    cases hq : s.queryId with
    | none =>
      rw [getProvenanceEvents, getProvenanceEvents,
          innerProvenanceQuery_no_queryId env pid mr sd ed s hs hq,
          innerProvenanceQuery_no_queryId { env with deleteOutcome := d } pid mr sd ed s hs hq]
    | some qid =>
      cases hev : s.results.provenanceEvents with
      | nil =>
        rw [getProvenanceEvents, getProvenanceEvents,
            innerProvenanceQuery_poll env pid mr sd ed s qid hs hq hev,
            innerProvenanceQuery_poll { env with deleteOutcome := d } pid mr sd ed s qid hs hq hev,
            provenancePollLoop_deleteOutcome_irrel env d pid mr 120 0]
      | cons ev rest =>
        rw [getProvenanceEvents, getProvenanceEvents,
            innerProvenanceQuery_inline env pid mr sd ed s qid ev rest hs hq hev,
            innerProvenanceQuery_inline { env with deleteOutcome := d } pid mr sd ed s qid ev rest hs hq hev]

/-! ## Claim theorems -/

/-- C1 (corrected).  For every submitted provenance query the cleanup delete
is issued on every terminal path, and a delete failure is never re-raised
and never changes the primary outcome — but it is issued exactly once only
on the success paths and on the unexpected-exception path.  On the upstream
FAILED path and on the polling-timeout path the explicit cleanup at
`nifi_client.py:536`/`nifi_client.py:542` is followed by the re-raised
`NiFiAPIError` reaching the handler at `nifi_client.py:545-549`, which
deletes again, so those two paths issue exactly two delete calls.  Parts:
(1) a successful result is reached with exactly one delete; (2) once a
query id is obtained, between one and two deletes happen on every path;
(3) a FAILED poll after `k` running polls gives exactly two deletes and the
failure error; (4) exhausting all 120 polls gives exactly two deletes and
the timeout error; (5) a poll that raises gives exactly one delete; (6) the
whole run is independent of the outcomes of the delete calls. -/
theorem C1_delete_per_query_amended :
    (∀ (env : ProvenanceEnv) (pid : String) (mr : Nat) (sd ed : Option String)
       (r : ProvenanceEventsResponse),
       (getProvenanceEvents env pid mr sd ed).result = .ok r →
       (getProvenanceEvents env pid mr sd ed).deletes = 1) ∧
    (∀ (env : ProvenanceEnv) (pid : String) (mr : Nat) (sd ed : Option String)
       (s : SubmitProvenance) (qid : String),
       env.submit (buildProvenanceQueryBody pid mr sd ed) = .ok s →
       s.queryId = some qid →
       1 ≤ (getProvenanceEvents env pid mr sd ed).deletes ∧
       (getProvenanceEvents env pid mr sd ed).deletes ≤ 2) ∧
    (∀ (env : ProvenanceEnv) (pid : String) (mr : Nat) (sd ed : Option String)
       (s : SubmitProvenance) (qid : String) (k : Nat) (pd : PollProvenance),
       env.submit (buildProvenanceQueryBody pid mr sd ed) = .ok s →
       s.queryId = some qid →
       s.results.provenanceEvents = [] →
       k < 120 →
       (∀ j, j < k → runningPollAt env j) →
       env.poll k = .ok pd →
       pd.status = some "FAILED" →
       (getProvenanceEvents env pid mr sd ed).deletes = 2 ∧
       (getProvenanceEvents env pid mr sd ed).result =
         .error ("Provenance query failed: " ++ pd.message.getD "Query failed")) ∧
    (∀ (env : ProvenanceEnv) (pid : String) (mr : Nat) (sd ed : Option String)
       (s : SubmitProvenance) (qid : String),
       env.submit (buildProvenanceQueryBody pid mr sd ed) = .ok s →
       s.queryId = some qid →
       s.results.provenanceEvents = [] →
       (∀ j, j < 120 → runningPollAt env j) →
       (getProvenanceEvents env pid mr sd ed).deletes = 2 ∧
       (getProvenanceEvents env pid mr sd ed).result =
         .error "Provenance query timed out") ∧
    (∀ (env : ProvenanceEnv) (pid : String) (mr : Nat) (sd ed : Option String)
       (s : SubmitProvenance) (qid : String) (k : Nat) (f : NifiFailure),
       env.submit (buildProvenanceQueryBody pid mr sd ed) = .ok s →
       s.queryId = some qid →
       s.results.provenanceEvents = [] →
       k < 120 →
       (∀ j, j < k → runningPollAt env j) →
       env.poll k = .error f →
       (getProvenanceEvents env pid mr sd ed).deletes = 1) ∧
    (∀ (env : ProvenanceEnv) (d1 d2 : Nat → Except String Unit) (pid : String)
       (mr : Nat) (sd ed : Option String),
       getProvenanceEvents { env with deleteOutcome := d1 } pid mr sd ed =
         getProvenanceEvents { env with deleteOutcome := d2 } pid mr sd ed) := by
  refine ⟨?_, ?_, ?_, ?_, ?_, ?_⟩
  · intro env pid mr sd ed r h
    cases hin : innerProvenanceQuery env pid mr sd ed with
    | mk o rest =>
      obtain ⟨q, p, dl⟩ := rest
      cases o with
      | ok r' =>
        have := innerProvenanceQuery_ok_shape env pid mr sd ed r' (by rw [hin])
        rw [hin] at this
        simp [getProvenanceEvents, hin]
        exact this.2
      | error f =>
        rw [getProvenanceEvents] at h
        rw [hin] at h
        cases q <;> simp at h
  · intro env pid mr sd ed s qid hs hq
    cases hev : s.results.provenanceEvents with
    | cons ev rest =>
      rw [getProvenanceEvents, innerProvenanceQuery_inline env pid mr sd ed s qid ev rest hs hq hev]
      dsimp only
      omega
    | nil =>
      rw [getProvenanceEvents, innerProvenanceQuery_poll env pid mr sd ed s qid hs hq hev]
      have hle := provenancePollLoop_deletes_le_one env pid mr 120 0
      cases ho : (provenancePollLoop env pid mr 0 120).1 with
      | ok r =>
        have := (provenancePollLoop_ok_shape env pid mr 120 0 r ho).2
        simp only [ho]
        omega
      | error f =>
        simp only [ho]
        omega
  · intro env pid mr sd ed s qid k pd hs hq hev hk hrun hpk hfail
    have hskip := provenancePollLoop_skip env pid mr k 0 120 (by omega)
      (by intro j hj; simpa using hrun j hj)
    obtain ⟨fuel, hfuel⟩ : ∃ f, 120 - k = f + 1 := ⟨119 - k, by omega⟩
    have hstep := provenancePollLoop_step_failed env pid mr (0 + k) fuel pd
      (by simpa using hpk) hfail
    rw [hfuel] at hskip
    rw [hstep] at hskip
    rw [getProvenanceEvents, innerProvenanceQuery_poll env pid mr sd ed s qid hs hq hev, hskip]
    exact ⟨rfl, rfl⟩
  · intro env pid mr sd ed s qid hs hq hev hrun
    have hskip := provenancePollLoop_skip env pid mr 120 0 120 (by omega)
      (by intro j hj; simpa using hrun j hj)
    rw [show (120 : Nat) - 120 = 0 from rfl, provenancePollLoop_zero] at hskip
    rw [getProvenanceEvents, innerProvenanceQuery_poll env pid mr sd ed s qid hs hq hev, hskip]
    exact ⟨rfl, rfl⟩
  · intro env pid mr sd ed s qid k f hs hq hev hk hrun hpk
    have hskip := provenancePollLoop_skip env pid mr k 0 120 (by omega)
      (by intro j hj; simpa using hrun j hj)
    obtain ⟨fuel, hfuel⟩ : ∃ fl, 120 - k = fl + 1 := ⟨119 - k, by omega⟩
    have hstep := provenancePollLoop_step_error env pid mr (0 + k) fuel f
      (by simpa using hpk)
    rw [hfuel] at hskip
    rw [hstep] at hskip
    rw [getProvenanceEvents, innerProvenanceQuery_poll env pid mr sd ed s qid hs hq hev, hskip]
  · intro env d1 d2 pid mr sd ed
    rw [getProvenanceEvents_deleteOutcome_irrel env d1 pid mr sd ed,
        getProvenanceEvents_deleteOutcome_irrel env d2 pid mr sd ed]

/-- C1 counterexample to the claim as stated: with a FAILED poll response,
the query `q-failed` is submitted and `get_provenance_events` issues two
delete-query calls for it, not exactly one. -/
theorem C1_delete_per_query_counterexample :
    (getProvenanceEvents sampleEnvFailed "proc-1" 100 none none).deletes = 2 ∧
    ¬ (getProvenanceEvents sampleEnvFailed "proc-1" 100 none none).deletes = 1 := by
  constructor
  · decide
  · decide

/-- C1 witness: the amended theorem applied to concrete environments for the
success, timeout, poll-exception and delete-independence parts. -/
theorem C1_delete_per_query_witness :
    (getProvenanceEvents sampleEnvInline "proc-1" 100 none none).deletes = 1 ∧
    ((getProvenanceEvents sampleEnvRunning "proc-1" 100 none none).deletes = 2 ∧
     (getProvenanceEvents sampleEnvRunning "proc-1" 100 none none).result =
       .error "Provenance query timed out") ∧
    (getProvenanceEvents sampleEnvPollCrash "proc-1" 100 none none).deletes = 1 ∧
    getProvenanceEvents { sampleEnvInline with deleteOutcome := fun _ => .ok () }
        "proc-1" 100 none none =
      getProvenanceEvents { sampleEnvInline with deleteOutcome := fun _ => .error "refused" }
        "proc-1" 100 none none := by
  refine ⟨?_, ?_, ?_, ?_⟩
  · exact C1_delete_per_query_amended.1 sampleEnvInline "proc-1" 100 none none
      (buildProvenanceResponse "proc-1" 100 sampleInlineResults "2024-06-01T00:00:00") rfl
  · exact C1_delete_per_query_amended.2.2.2.1 sampleEnvRunning "proc-1" 100 none none
      { queryId := some "q-running" } "q-running" rfl rfl rfl
      (fun j _ => ⟨{ status := some "RUNNING" }, rfl, by decide, by decide⟩)
  · exact C1_delete_per_query_amended.2.2.2.2.1 sampleEnvPollCrash "proc-1" 100 none none
      { queryId := some "q-crash" } "q-crash" 0 (.exc "connection dropped") rfl rfl rfl
      (by omega) (fun j hj => absurd hj (by omega)) rfl
  · exact C1_delete_per_query_amended.2.2.2.2.2 sampleEnvInline
      (fun _ => .ok ()) (fun _ => .error "refused") "proc-1" 100 none none

/-- C10 (confirmed).  When the submission response carries no query id,
`get_provenance_events` raises the `NiFiAPIError` for an unidentifiable
query and issues no delete-query call and no poll at all: the cleanup in the
exception handlers runs only when `query_id` is set. -/
theorem C10_no_query_id_no_delete (env : ProvenanceEnv) (pid : String)
    (mr : Nat) (sd ed : Option String) (s : SubmitProvenance)
    (hs : env.submit (buildProvenanceQueryBody pid mr sd ed) = .ok s)
    (hq : s.queryId = none) :
    (getProvenanceEvents env pid mr sd ed).result =
      .error "Failed to get query ID from provenance request" ∧
    (getProvenanceEvents env pid mr sd ed).deletes = 0 ∧
    (getProvenanceEvents env pid mr sd ed).polls = 0 := by
  rw [getProvenanceEvents, innerProvenanceQuery_no_queryId env pid mr sd ed s hs hq]
  exact ⟨rfl, rfl, rfl⟩

/-- C10 witness: the theorem applied to a concrete environment whose
submission response has no query id. -/
theorem C10_no_query_id_no_delete_witness :
    (getProvenanceEvents sampleEnvNoQueryId "proc-1" 100 none none).result =
      .error "Failed to get query ID from provenance request" ∧
    (getProvenanceEvents sampleEnvNoQueryId "proc-1" 100 none none).deletes = 0 ∧
    (getProvenanceEvents sampleEnvNoQueryId "proc-1" 100 none none).polls = 0 :=
  C10_no_query_id_no_delete sampleEnvNoQueryId "proc-1" 100 none none
    { queryId := none, results := sampleInlineResults } rfl rfl

/-- C4 (confirmed).  Whatever the upstream ordering, the event list of a
successful `get_provenance_events` result is sorted descending by
`eventTime` — every earlier event's time is at least every later one's —
on both the inline-result path and the polled-result path. -/
theorem C4_events_sorted_desc (env : ProvenanceEnv) (pid : String) (mr : Nat)
    (sd ed : Option String) (r : ProvenanceEventsResponse)
    (h : (getProvenanceEvents env pid mr sd ed).result = .ok r) :
    r.events.Pairwise (fun a b => b.event_time ≤ a.event_time) := by
  cases hin : innerProvenanceQuery env pid mr sd ed with
  | mk o rest =>
    obtain ⟨q, p, dl⟩ := rest
    cases o with
    | ok r' =>
      obtain ⟨⟨rd, hrd⟩, -⟩ :=
        innerProvenanceQuery_ok_shape env pid mr sd ed r' (by rw [hin])
      have hrr : r = r' := by
        rw [getProvenanceEvents] at h
        rw [hin] at h
        simpa using h.symm
      rw [hrr, hrd]
      exact buildProvenanceResponse_events_sorted pid mr rd env.now
    | error f =>
      rw [getProvenanceEvents] at h
      rw [hin] at h
      cases q <;> simp at h

/-- C4 witness: the theorem applied to the inline environment whose upstream
order is not sorted. -/
theorem C4_events_sorted_desc_witness :
    (getProvenanceEvents sampleEnvInline "proc-1" 100 none none).result =
      .ok (buildProvenanceResponse "proc-1" 100 sampleInlineResults "2024-06-01T00:00:00") ∧
    (buildProvenanceResponse "proc-1" 100 sampleInlineResults
      "2024-06-01T00:00:00").events.Pairwise
      (fun a b => b.event_time ≤ a.event_time) ∧
    (buildProvenanceResponse "proc-1" 100 sampleInlineResults
      "2024-06-01T00:00:00").events.map (fun e => e.event_time) =
      ["2024-03-01", "2024-02-01", "2024-01-01"] :=
  ⟨rfl,
   C4_events_sorted_desc sampleEnvInline "proc-1" 100 none none
     (buildProvenanceResponse "proc-1" 100 sampleInlineResults "2024-06-01T00:00:00") rfl,
   by decide⟩

/-- C5 (corrected).  `totalEvents` equals the upstream-reported total taken
from `totalCount` when present, otherwise parsed from the non-empty string
`total` with commas removed — but when that parse fails the code falls back
to the raw event-list length even though `total` is present, so the fallback
is not used "only when neither is present".  Both terminal paths return the
`computeTotalCount` value of the upstream results object, independent of the
`maxResults` truncation of the event list. -/
theorem C5_total_events_amended :
    (∀ (env : ProvenanceEnv) (pid : String) (mr : Nat) (sd ed : Option String)
       (s : SubmitProvenance) (qid : String) (ev : RawProvenanceEvent)
       (rest : List RawProvenanceEvent),
       env.submit (buildProvenanceQueryBody pid mr sd ed) = .ok s →
       s.queryId = some qid →
       s.results.provenanceEvents = ev :: rest →
       (getProvenanceEvents env pid mr sd ed).result =
         .ok (buildProvenanceResponse pid mr s.results env.now) ∧
       (buildProvenanceResponse pid mr s.results env.now).totalEvents =
         computeTotalCount s.results.totalCount s.results.total
           s.results.provenanceEvents.length ∧
       (buildProvenanceResponse pid mr s.results env.now).events.length ≤ mr) ∧
    (∀ (env : ProvenanceEnv) (pid : String) (mr : Nat) (sd ed : Option String)
       (s : SubmitProvenance) (qid : String) (k : Nat) (pd : PollProvenance),
       env.submit (buildProvenanceQueryBody pid mr sd ed) = .ok s →
       s.queryId = some qid →
       s.results.provenanceEvents = [] →
       k < 120 →
       (∀ j, j < k → runningPollAt env j) →
       env.poll k = .ok pd →
       pd.status = some "FINISHED" →
       (getProvenanceEvents env pid mr sd ed).result =
         .ok (buildProvenanceResponse pid mr pd.results env.now) ∧
       (buildProvenanceResponse pid mr pd.results env.now).totalEvents =
         computeTotalCount pd.results.totalCount pd.results.total
           pd.results.provenanceEvents.length ∧
       (buildProvenanceResponse pid mr pd.results env.now).events.length ≤ mr) := by
  constructor
  · intro env pid mr sd ed s qid ev rest hs hq hev
    rw [getProvenanceEvents, innerProvenanceQuery_inline env pid mr sd ed s qid ev rest hs hq hev]
    exact ⟨rfl, buildProvenanceResponse_totalEvents pid mr s.results env.now,
      buildProvenanceResponse_events_length_le pid mr s.results env.now⟩
  · intro env pid mr sd ed s qid k pd hs hq hev hk hrun hpk hfin
    have hskip := provenancePollLoop_skip env pid mr k 0 120 (by omega)
      (by intro j hj; simpa using hrun j hj)
    obtain ⟨fuel, hfuel⟩ : ∃ fl, 120 - k = fl + 1 := ⟨119 - k, by omega⟩
    have hstep := provenancePollLoop_step_finished env pid mr (0 + k) fuel pd
      (by simpa using hpk) hfin
    rw [hfuel] at hskip
    rw [hstep] at hskip
    rw [getProvenanceEvents, innerProvenanceQuery_poll env pid mr sd ed s qid hs hq hev, hskip]
    exact ⟨rfl, buildProvenanceResponse_totalEvents pid mr pd.results env.now,
      buildProvenanceResponse_events_length_le pid mr pd.results env.now⟩

/-- C5 counterexample to the claim as stated: upstream reports
`totalCount = None` and `total = "abc"`, which is present and non-empty, yet
`int("abc")` raises and `totalEvents` falls back to the raw event-list
length 3 — the fallback is used although the `total` field is present, not
"only when neither is present". -/
theorem C5_total_events_counterexample :
    sampleUnparsedTotalResults.totalCount = none ∧
    sampleUnparsedTotalResults.total = some "abc" ∧
    parseIntPy (removeCommas "abc") = none ∧
    (getProvenanceEvents sampleEnvUnparsedTotal "proc-1" 100 none none).result =
      .ok (buildProvenanceResponse "proc-1" 100 sampleUnparsedTotalResults
        "2024-06-01T00:00:05") ∧
    (buildProvenanceResponse "proc-1" 100 sampleUnparsedTotalResults
      "2024-06-01T00:00:05").totalEvents = 3 ∧
    sampleUnparsedTotalResults.provenanceEvents.length = 3 := by
  refine ⟨rfl, rfl, by decide, rfl, by decide, rfl⟩

/-- C5 witness: the amended theorem applied to the inline environment where
`maxResults = 2` truncates the three returned events while `totalEvents`
keeps the upstream-reported 1234. -/
theorem C5_total_events_witness :
    ((getProvenanceEvents sampleEnvInline "proc-1" 2 none none).result =
       .ok (buildProvenanceResponse "proc-1" 2 sampleInlineResults "2024-06-01T00:00:00") ∧
     (buildProvenanceResponse "proc-1" 2 sampleInlineResults "2024-06-01T00:00:00").totalEvents =
       computeTotalCount sampleInlineResults.totalCount sampleInlineResults.total
         sampleInlineResults.provenanceEvents.length ∧
     (buildProvenanceResponse "proc-1" 2 sampleInlineResults "2024-06-01T00:00:00").events.length ≤ 2) ∧
    (buildProvenanceResponse "proc-1" 2 sampleInlineResults "2024-06-01T00:00:00").totalEvents = 1234 ∧
    (buildProvenanceResponse "proc-1" 2 sampleInlineResults "2024-06-01T00:00:00").events.length = 2 :=
  ⟨C5_total_events_amended.1 sampleEnvInline "proc-1" 2 none none
     { queryId := some "q-inline", results := sampleInlineResults } "q-inline"
     (sampleRawEvent "a" "2024-01-01")
     [sampleRawEvent "b" "2024-03-01", sampleRawEvent "c" "2024-02-01"]
     rfl rfl rfl,
   by decide, by decide⟩

/-- C6 (confirmed).  When the submission response already contains inline
`results.provenanceEvents`, `get_provenance_events` returns without issuing
a single poll request and still issues the delete-query call before
returning; the request body it submitted asked for `summarize=true`. -/
theorem C6_inline_no_polling (env : ProvenanceEnv) (pid : String) (mr : Nat)
    (sd ed : Option String) (s : SubmitProvenance) (qid : String)
    (ev : RawProvenanceEvent) (rest : List RawProvenanceEvent)
    (hs : env.submit (buildProvenanceQueryBody pid mr sd ed) = .ok s)
    (hq : s.queryId = some qid)
    (hev : s.results.provenanceEvents = ev :: rest) :
    (getProvenanceEvents env pid mr sd ed).polls = 0 ∧
    (getProvenanceEvents env pid mr sd ed).deletes = 1 ∧
    (getProvenanceEvents env pid mr sd ed).result =
      .ok (buildProvenanceResponse pid mr s.results env.now) ∧
    (buildProvenanceQueryBody pid mr sd ed).summarize = true := by
  rw [getProvenanceEvents, innerProvenanceQuery_inline env pid mr sd ed s qid ev rest hs hq hev]
  exact ⟨rfl, rfl, rfl, rfl⟩

/-- C6 witness: the theorem applied to the inline environment. -/
theorem C6_inline_no_polling_witness :
    (getProvenanceEvents sampleEnvInline "proc-1" 100 none none).polls = 0 ∧
    (getProvenanceEvents sampleEnvInline "proc-1" 100 none none).deletes = 1 ∧
    (getProvenanceEvents sampleEnvInline "proc-1" 100 none none).result =
      .ok (buildProvenanceResponse "proc-1" 100 sampleInlineResults "2024-06-01T00:00:00") ∧
    (buildProvenanceQueryBody "proc-1" 100 none none).summarize = true :=
  C6_inline_no_polling sampleEnvInline "proc-1" 100 none none
    { queryId := some "q-inline", results := sampleInlineResults } "q-inline"
    (sampleRawEvent "a" "2024-01-01")
    [sampleRawEvent "b" "2024-03-01", sampleRawEvent "c" "2024-02-01"]
    rfl rfl rfl

/-- C2 (confirmed).  When the parent's own two fetches succeed within the
depth bound, the hierarchy walk always returns a parent node; its children
list maps each truthy child entry, in upstream order, to the fully resolved
subtree when the child's recursive fetch succeeds and to the degraded
stand-in when it fails — so one failing child never aborts its siblings.
The stand-in keeps the child's id, falls back to the child's known component
name or the `"Error Loading"` sentinel, sets `comments` to the non-empty
error text, and has no processors, connections or children. -/
theorem C2_sibling_isolation (env : HierarchyEnv) (groupId : String)
    (depth maxDepth : Nat) (pgData : RawProcessGroupEntity)
    (flowEntity : RawFlowEntity)
    (hdepth : depth ≤ maxDepth)
    (hpg : env.processGroup groupId = .ok pgData)
    (hflow : env.processGroupFlow groupId = .ok flowEntity) :
    ∃ detail,
      (getProcessGroupHierarchy env groupId depth maxDepth).1 = .ok detail ∧
      detail.children =
        (validChildEntries
          (((flowEntity.processGroupFlow.getD {}).flow).getD {}).processGroups).map
          (resolveChildOutcome env depth maxDepth) ∧
      (∀ (entry : String × Option RawPGComponent) (r : ProcessGroupDetail),
         (getProcessGroupHierarchy env entry.1 (depth + 1) maxDepth).1 = .ok r →
         resolveChildOutcome env depth maxDepth entry = r) ∧
      (∀ (entry : String × Option RawPGComponent) (m : String),
         (getProcessGroupHierarchy env entry.1 (depth + 1) maxDepth).1 = .error m →
         resolveChildOutcome env depth maxDepth entry = errorChildNode entry.1 entry.2 m) ∧
      (∀ (cid : String) (comp : Option RawPGComponent) (m : String),
         (errorChildNode cid comp m).id = cid ∧
         (errorChildNode cid comp m).name = ((comp.getD {}).name).getD "Error Loading" ∧
         (errorChildNode cid comp m).comments = some ("Error: " ++ m) ∧
         ("Error: " ++ m) ≠ "" ∧
         (errorChildNode cid comp m).processors = [] ∧
         (errorChildNode cid comp m).connections = [] ∧
         (errorChildNode cid comp m).children = []) := by
  rw [getProcessGroupHierarchy_ok_eq env groupId depth maxDepth pgData flowEntity
    hdepth hpg hflow]
  refine ⟨_, rfl, rfl, ?_, ?_, ?_⟩
  · intro entry r h
    rw [resolveChildOutcome]
    cases hrec : getProcessGroupHierarchy env entry.1 (depth + 1) maxDepth with
    | mk res calls =>
      rw [hrec] at h
      simp only at h
      rw [h]
  · intro entry m h
    rw [resolveChildOutcome]
    cases hrec : getProcessGroupHierarchy env entry.1 (depth + 1) maxDepth with
    | mk res calls =>
      rw [hrec] at h
      simp only at h
      rw [h]
  · intro cid comp m
    refine ⟨rfl, rfl, rfl, ?_, rfl, rfl, rfl⟩
    intro hcontra
    have hlen : ("Error: " ++ m).length = 0 := by rw [hcontra]; rfl
    rw [String.length_append] at hlen
    have h7 : ("Error: " : String).length = 7 := rfl
    omega

/-- C2 witness: the theorem applied to a concrete hierarchy in which
fetching child `bad` raises and sibling `ok1` resolves. -/
theorem C2_sibling_isolation_witness :
    (0 : Nat) ≤ 10 ∧
    sampleHierarchyEnv.processGroup "root" = .ok sampleRootEntity ∧
    sampleHierarchyEnv.processGroupFlow "root" = .ok sampleRootFlowEntity ∧
    ∃ detail,
      (getProcessGroupHierarchy sampleHierarchyEnv "root" 0 10).1 = .ok detail ∧
      detail.children =
        (validChildEntries
          (((sampleRootFlowEntity.processGroupFlow.getD {}).flow).getD {}).processGroups).map
          (resolveChildOutcome sampleHierarchyEnv 0 10) ∧
      (∀ (entry : String × Option RawPGComponent) (r : ProcessGroupDetail),
         (getProcessGroupHierarchy sampleHierarchyEnv entry.1 (0 + 1) 10).1 = .ok r →
         resolveChildOutcome sampleHierarchyEnv 0 10 entry = r) ∧
      (∀ (entry : String × Option RawPGComponent) (m : String),
         (getProcessGroupHierarchy sampleHierarchyEnv entry.1 (0 + 1) 10).1 = .error m →
         resolveChildOutcome sampleHierarchyEnv 0 10 entry = errorChildNode entry.1 entry.2 m) ∧
      (∀ (cid : String) (comp : Option RawPGComponent) (m : String),
         (errorChildNode cid comp m).id = cid ∧
         (errorChildNode cid comp m).name = ((comp.getD {}).name).getD "Error Loading" ∧
         (errorChildNode cid comp m).comments = some ("Error: " ++ m) ∧
         ("Error: " ++ m) ≠ "" ∧
         (errorChildNode cid comp m).processors = [] ∧
         (errorChildNode cid comp m).connections = [] ∧
         (errorChildNode cid comp m).children = []) :=
  ⟨by omega, rfl, rfl,
   C2_sibling_isolation sampleHierarchyEnv "root" 0 10 sampleRootEntity
     sampleRootFlowEntity (by omega) rfl rfl⟩

/-- C3 (confirmed).  A hierarchy call at `depth > maxDepth` fails with the
bounded-recursion error before issuing any upstream fetch (its upstream-call
trace is empty); with `maxDepth = 0`, a parent whose own fetches succeed
issues exactly its own two upstream calls, and every truthy child entry is
replaced by the bounded-recursion stand-in, contained by sibling isolation
at the parent. -/
theorem C3_depth_guard :
    (∀ (env : HierarchyEnv) (groupId : String) (depth maxDepth : Nat),
       depth > maxDepth →
       getProcessGroupHierarchy env groupId depth maxDepth =
         (.error "Max recursion depth reached", [])) ∧
    (∀ (env : HierarchyEnv) (groupId : String) (pgData : RawProcessGroupEntity)
       (flowEntity : RawFlowEntity),
       env.processGroup groupId = .ok pgData →
       env.processGroupFlow groupId = .ok flowEntity →
       (getProcessGroupHierarchy env groupId 0 0).2 = [.pg groupId, .flow groupId] ∧
       ∃ detail, (getProcessGroupHierarchy env groupId 0 0).1 = .ok detail ∧
         detail.children =
           (validChildEntries
             (((flowEntity.processGroupFlow.getD {}).flow).getD {}).processGroups).map
             (fun e => errorChildNode e.1 e.2 "Max recursion depth reached")) := by
  constructor
  · intro env groupId depth maxDepth h
    exact getProcessGroupHierarchy_guard env groupId depth maxDepth h
  · intro env groupId pgData flowEntity hpg hflow
    have hchild : resolveChildOutcome env 0 0 =
        fun e : String × Option RawPGComponent =>
          errorChildNode e.1 e.2 "Max recursion depth reached" := by
      funext e
      rw [resolveChildOutcome, getProcessGroupHierarchy_guard env e.1 1 0 (by omega)]
    have htrace : ∀ (l : List (String × Option RawPGComponent)),
        ((l.map (fun e =>
          (getProcessGroupHierarchy env e.1 (0 + 1) 0).2)).flatten) = [] := by
      intro l
      induction l with
      | nil => rfl
      | cons e rest ih =>
        simp [List.map_cons, List.flatten_cons, ih,
          getProcessGroupHierarchy_guard env e.1 (0 + 1) 0 (by omega)]
    rw [getProcessGroupHierarchy_ok_eq env groupId 0 0 pgData flowEntity
      (le_refl 0) hpg hflow]
    refine ⟨?_, _, rfl, ?_⟩
    · dsimp only
      rw [htrace, List.append_nil]
    · rw [hchild]

/-- C3 witness: the guard applied at a concrete over-deep call and the
`maxDepth = 0` scenario applied to the concrete sample hierarchy. -/
theorem C3_depth_guard_witness :
    getProcessGroupHierarchy sampleHierarchyEnv "anything" 5 2 =
      (.error "Max recursion depth reached", []) ∧
    ((getProcessGroupHierarchy sampleHierarchyEnv "root" 0 0).2 =
       [.pg "root", .flow "root"] ∧
     ∃ detail, (getProcessGroupHierarchy sampleHierarchyEnv "root" 0 0).1 = .ok detail ∧
       detail.children =
         (validChildEntries
           (((sampleRootFlowEntity.processGroupFlow.getD {}).flow).getD {}).processGroups).map
           (fun e => errorChildNode e.1 e.2 "Max recursion depth reached")) :=
  ⟨C3_depth_guard.1 sampleHierarchyEnv "anything" 5 2 (by omega),
   C3_depth_guard.2 sampleHierarchyEnv "root" sampleRootEntity sampleRootFlowEntity rfl rfl⟩

/-- C7 (confirmed).  A `FlowStatus` built from a payload missing every field
(an absent `controllerStatus`, or one with every counter absent) equals the
all-default `FlowStatus()` value, and `get_flow_status` returns that default
— never `None` — whenever the upstream call fails. -/
theorem C7_flow_status_default :
    flowStatusFromControllerStatus {} = ({} : FlowStatus) ∧
    getFlowStatus (.ok {}) = ({} : FlowStatus) ∧
    (∀ e : String, getFlowStatus (.error e) = ({} : FlowStatus)) := by
  refine ⟨rfl, rfl, fun e => rfl⟩

/-- C8 (confirmed).  The content endpoint answers 400 before the NiFi client
is ever invoked when the side is outside `{input, output}`; a `NiFiAPIError`
from the client (including the wrapped `httpx.HTTPStatusError`) is mapped to
502 with a descriptive detail; and the handlers' shared `except` chain maps
any non-`NiFiAPIError` exception to 500. -/
theorem C8_error_mapping :
    (∀ (upstream : Except NifiFailure ContentFetchResult) (side : String),
       side ≠ "input" → side ≠ "output" →
       getProvenanceEventContentEndpoint upstream side =
         { status := 400, detail := some "content_type must be input or output",
           upstreamCalled := false }) ∧
    (∀ (side : String) (m : String), (side = "input" ∨ side = "output") →
       getProvenanceEventContentEndpoint (.error (.api m)) side =
         { status := 502, detail := some ("NiFi API error: " ++ m),
           upstreamCalled := true }) ∧
    (∀ (side : String) (c : Nat), (side = "input" ∨ side = "output") →
       getProvenanceEventContentEndpoint (.error (.http c)) side =
         { status := 502,
           detail := some ("NiFi API error: " ++ ("HTTP error: " ++ toString c)),
           upstreamCalled := true }) ∧
    (∀ m : String, handlerStatusFor (.internal m) = (500, "Internal server error: " ++ m)) ∧
    (∀ m : String, handlerStatusFor (.nifiApi m) = (502, "NiFi API error: " ++ m)) := by
  refine ⟨?_, ?_, ?_, fun m => rfl, fun m => rfl⟩
  · intro upstream side h1 h2
    rw [getProvenanceEventContentEndpoint, if_pos ⟨h1, h2⟩]
  · intro side m hside
    have hvalid : ¬ (side ≠ "input" ∧ side ≠ "output") := by
      rcases hside with h | h <;> subst h <;> simp
    rw [getProvenanceEventContentEndpoint, if_neg hvalid,
        getProvenanceEventContentClient, if_neg hvalid]
    rfl
  · intro side c hside
    have hvalid : ¬ (side ≠ "input" ∧ side ≠ "output") := by
      rcases hside with h | h <;> subst h <;> simp
    rw [getProvenanceEventContentEndpoint, if_neg hvalid,
        getProvenanceEventContentClient, if_neg hvalid]
    rfl

/-- C8 witness: the mapping applied at an invalid side, at an upstream
`NiFiAPIError`, and at an upstream HTTP 503 status error. -/
theorem C8_error_mapping_witness :
    getProvenanceEventContentEndpoint (.error (.api "boom")) "sideways" =
      { status := 400, detail := some "content_type must be input or output",
        upstreamCalled := false } ∧
    getProvenanceEventContentEndpoint (.error (.api "boom")) "input" =
      { status := 502, detail := some ("NiFi API error: " ++ "boom"),
        upstreamCalled := true } ∧
    getProvenanceEventContentEndpoint (.error (.http 503)) "output" =
      { status := 502,
        detail := some ("NiFi API error: " ++ ("HTTP error: " ++ toString 503)),
        upstreamCalled := true } ∧
    handlerStatusFor (.internal "oops") = (500, "Internal server error: " ++ "oops") :=
  ⟨C8_error_mapping.1 (.error (.api "boom")) "sideways" (by decide) (by decide),
   C8_error_mapping.2.1 "input" "boom" (Or.inl rfl),
   C8_error_mapping.2.2.1 "output" 503 (Or.inr rfl),
   C8_error_mapping.2.2.2.1 "oops"⟩

/-- C9 (confirmed).  `health_check` is a total function of the upstream
outcome: every failure — authentication and connectivity included — yields
the dictionary with `available = False` and the error text rather than a
raised exception, and the `/api/health` handler therefore always answers
with a health payload whose status is `"unhealthy"` on failure (never a 502
error response), and `"healthy"` otherwise. -/
theorem C9_health_never_raises :
    (∀ e : String, healthCheck (.error e) =
       { available := false, dataBlob := none, error := some e }) ∧
    (∀ (e url : String), healthEndpoint (.error e) url =
       { status := "unhealthy", nifi_api_url := url, nifi_available := false,
         message := some e }) ∧
    (∀ (upstream : Except String String) (url : String),
       (healthEndpoint upstream url).status = "healthy" ∨
       (healthEndpoint upstream url).status = "unhealthy") := by
  refine ⟨fun e => rfl, fun e url => rfl, ?_⟩
  intro upstream url
  cases upstream with
  | ok d => exact Or.inl rfl
  | error e => exact Or.inr rfl

end Nifi
